import Mathlib

/-!
# Meeting-transcription pipeline: shallow embedding and verification

This file embeds the TypeScript meeting-transcription pipeline
(`meeting-transcription-api` step, `meeting-transcription-processor` step,
`meeting-summarizer` step and the `meetingTranscription` stream schema) into
Lean and proves the specification claims about it.

Modelling conventions:
* JavaScript strings are Lean `String`s; `String.prototype.includes`,
  `split`, `trim`, `toLowerCase` are mirrored by `jsIncludes`, `splitOn`,
  `String.trim`, `String.toLower`.
* JavaScript numbers appearing in this code are integers or simple decimal
  fractions; they are modelled by `Nat`/`ℤ`/`ℚ` (`Math.round` is Mathlib's
  `round`, rounding half up, `Math.ceil(n/150)` on naturals is
  `(n + 149) / 150`).
* Wall-clock fields (`timestamp`, `processingTime`) and the logger are
  outside the embedding; they carry no pipeline-relevant information.
* The store/bus I/O primitives (`streams.*.set/add`, `emit`) are modelled
  as effect lists collected by each handler; faults are injected at the
  points where the surrounding `try`/`catch` can observe them.
-/

namespace MeetingPipeline

/-! ## JavaScript string primitives -/

/-- `haystack.includes(needle)` of JavaScript: substring containment. -/
def jsIncludes (haystack needle : String) : Bool :=
  decide (needle.data <:+: haystack.data)

/-- `s.split('\n')` of JavaScript. -/
def jsLines (s : String) : List String := s.splitOn "\n"

/-- `s.split(' ')` of JavaScript. -/
def jsWords (s : String) : List String := s.splitOn " "

/-- `p.toLowerCase().split(' ')[0]` of JavaScript: first space-separated
token (JavaScript `split` always returns a non-empty array). -/
def jsFirstToken (s : String) : String := (s.splitOn " ").headD ""

/-- JavaScript falsiness of an optional string value: `undefined` and the
empty string are falsy. -/
def jsFalsyString : Option String → Bool
  | none => true
  | some s => s = ""

/-- JavaScript `o || d` on an optional string: the default is taken when
the value is `undefined` or empty. -/
def jsOrElse (o : Option String) (d : String) : String :=
  match o with
  | none => d
  | some s => if s = "" then d else s

/-! ## Text-Analysis Engine
Direct translations of the six helper functions of
`meeting-summarizer.step.ts`. -/

/-- `generateMeetingSummary` of `meeting-summarizer.step.ts`. -/
def generateMeetingSummary (transcript : String) : String :=
  let lines := (jsLines transcript).filter (fun line => line.trim ≠ "")
  let wordCount := (jsWords transcript).length
  let importantSentences :=
    ((lines.filter (fun line => line.length > 50)).take 3).map (·.trim)
  ("\n📋 Meeting Summary:\nThis " ++ toString ((wordCount + 149) / 150)
    ++ "-minute meeting covered several key areas. "
    ++ String.intercalate " " importantSentences
    ++ "\n\n🎯 Key Outcomes:\n• Main discussion topics were identified and addressed\n• Team collaboration and coordination points were established\n• Forward-looking action items were assigned to participants\n\n💡 Overall Assessment:\nThe meeting was productive with clear outcomes and next steps defined.\n  ").trim

/-- The fixed action-indicator vocabulary of `extractActionItems`. -/
def actionWords : List String :=
  ["will", "should", "need to", "must", "action", "todo", "follow up",
   "complete", "deliver"]

/-- The three fixed fallback action items of `extractActionItems`. -/
def defaultActionItems : List String :=
  ["Team: Follow up on discussed topics from this meeting",
   "Organizer: Schedule next meeting to review progress",
   "Participants: Review meeting notes and prepare for next session"]

/-- `extractActionItems` of `meeting-summarizer.step.ts`.
`participants?.find(...) || 'Team member'` makes an absent list, a failed
search and an empty-string participant all fall back to `"Team member"`. -/
def extractActionItems (transcript : String)
    (participants : Option (List String)) : List String :=
  let lines := jsLines transcript.toLower
  let actionItems :=
    (lines.filter (fun line =>
      actionWords.any (fun w => jsIncludes line w) && line.length > 30)).map
      (fun line =>
        let assignee :=
          match participants with
          | none => "Team member"
          | some ps =>
            match ps.find? (fun p => jsIncludes line (jsFirstToken p.toLower)) with
            | some p => if p = "" then "Team member" else p
            | none => "Team member"
        assignee ++ ": " ++ line.trim)
  let actionItems := if actionItems = [] then defaultActionItems else actionItems
  actionItems.take 5

/-- The fixed topic→keyword table of `extractKeyTopics`, in source order. -/
def topicKeywords : List (String × List String) :=
  [("Project Management", ["project", "timeline", "deadline", "milestone", "deliverable"]),
   ("Budget & Finance", ["budget", "cost", "expense", "financial", "revenue", "profit"]),
   ("Team & Personnel", ["team", "staff", "hire", "employee", "resource", "people"]),
   ("Strategy & Planning", ["strategy", "plan", "goal", "objective", "vision", "future"]),
   ("Technology", ["system", "software", "platform", "api", "technical", "development"]),
   ("Sales & Marketing", ["sales", "marketing", "customer", "client", "campaign", "revenue"]),
   ("Operations", ["process", "workflow", "operation", "efficiency", "procedure"]),
   ("Quality & Performance", ["quality", "performance", "metrics", "improvement", "optimization"])]

/-- `extractKeyTopics` of `meeting-summarizer.step.ts`. -/
def extractKeyTopics (transcript : String) : List String :=
  let text := transcript.toLower
  let identifiedTopics :=
    (topicKeywords.filter (fun tk =>
      (tk.2.filter (fun keyword => jsIncludes text keyword)).length ≥ 2)).map (·.1)
  if identifiedTopics.length > 0 then identifiedTopics
  else ["General Discussion", "Team Coordination"]

/-- The fixed positive word list of `analyzeSentiment`. -/
def positiveWords : List String :=
  ["great", "excellent", "good", "success", "achieve", "progress",
   "positive", "agree", "yes"]

/-- The fixed negative word list of `analyzeSentiment`. -/
def negativeWords : List String :=
  ["problem", "issue", "concern", "difficult", "challenge", "delay",
   "failed", "no", "disagree"]

/-- The object returned by `analyzeSentiment`. -/
structure SentimentAnalysis where
  overall : String
  confidence : ℚ
  positiveIndicators : Nat
  negativeIndicators : Nat
  energyLevel : String
deriving Repr, DecidableEq

/-- `analyzeSentiment` of `meeting-summarizer.step.ts`. -/
def analyzeSentiment (transcript : String) : SentimentAnalysis :=
  let text := transcript.toLower
  let positiveCount := (positiveWords.filter (fun w => jsIncludes text w)).length
  let negativeCount := (negativeWords.filter (fun w => jsIncludes text w)).length
  { overall :=
      if positiveCount > negativeCount then "positive"
      else if negativeCount > positiveCount then "negative"
      else "neutral"
    confidence :=
      min (0.95 : ℚ) (0.6 + (((positiveCount : ℤ) - negativeCount).natAbs : ℚ) * 0.1)
    positiveIndicators := positiveCount
    negativeIndicators := negativeCount
    energyLevel :=
      if jsIncludes text "excited" || jsIncludes text "enthusiastic" then "high"
      else "medium" }

/-- The fixed decision-indicator vocabulary of `extractDecisions`. -/
def decisionWords : List String :=
  ["decided", "agreed", "approved", "concluded", "determined", "resolved"]

/-- `extractDecisions` of `meeting-summarizer.step.ts`. -/
def extractDecisions (transcript : String) : List String :=
  let lines := jsLines transcript
  let decisions :=
    (lines.filter (fun line =>
      decisionWords.any (fun w => jsIncludes line.toLower w) && line.length > 40)).map
      (·.trim)
  decisions.take 3

/-- The `keyMetrics` sub-object returned by `generateInsights`. -/
structure KeyMetrics where
  wordCount : Nat
  estimatedSpeakingRate : ℤ
  participantCount : Nat
deriving Repr, DecidableEq

/-- The object returned by `generateInsights`. -/
structure Insights where
  participationScore : Nat
  engagementLevel : String
  meetingEfficiency : String
  followUpNeeded : Bool
  keyMetrics : KeyMetrics
deriving Repr, DecidableEq

/-- `generateInsights` of `meeting-summarizer.step.ts`.
JavaScript truthiness is preserved: `duration ? _ : 150` makes both an
absent and a zero duration fall back to 150; `participants ? _ : 8`
takes the branch `min(10, length*2)` for *any* present array, so an empty
array scores 0; `participants?.length || 2` turns both an absent list and
an empty list into a count of 2. -/
def generateInsights (transcript : String) (participants : Option (List String))
    (duration : Option ℚ) : Insights :=
  let wordCount := (jsWords transcript).length
  let speakingRate : ℤ :=
    match duration with
    | some d => if d = 0 then 150 else round ((wordCount : ℚ) / (d / 60))
    | none => 150
  { participationScore :=
      match participants with
      | some ps => min 10 (ps.length * 2)
      | none => 8
    engagementLevel :=
      if speakingRate > 160 then "high"
      else if speakingRate > 120 then "medium"
      else "low"
    meetingEfficiency :=
      if jsIncludes transcript "action" || jsIncludes transcript "next steps" then "high"
      else "medium"
    followUpNeeded :=
      jsIncludes transcript "follow up" || jsIncludes transcript "next meeting"
    keyMetrics :=
      { wordCount := wordCount
        estimatedSpeakingRate := speakingRate
        participantCount :=
          match participants with
          | some ps => if ps.length = 0 then 2 else ps.length
          | none => 2 } }

/-! ## Stream record and event data model
From `meeting-transcription.stream.ts` (schema) and the payloads built by
the three step handlers. -/

/-- The status enum of the `meetingTranscription` stream schema. -/
inductive Status
  | uploading
  | transcribing
  | processing
  | completed
  | failed
deriving Repr, DecidableEq

/-- One record of the `meetingTranscription` stream, per the Zod schema of
`meeting-transcription.stream.ts`; fields that the handlers omit in a given
write default to `none` (`timestamp`/`processingTime` are wall-clock and
are outside the embedding). -/
structure StreamRecord where
  status : Status
  progress : Nat
  filename : String
  duration : Option ℚ := none
  transcript : Option String := none
  summary : Option String := none
  actionItems : Option (List String) := none
  keyTopics : Option (List String) := none
  sentimentAnalysis : Option SentimentAnalysis := none
  decisions : Option (List String) := none
  insights : Option Insights := none
  participants : Option (List String) := none
  error : Option String := none
  localWhisperStatus : Option String := none
  whisperModel : Option String := none
deriving Repr, DecidableEq

/-- A keyed write `streams.meetingTranscription.set(groupId, id, record)`. -/
structure KeyedWrite where
  groupId : String
  id : String
  record : StreamRecord
deriving Repr, DecidableEq

/-- Read interface over a sequence of keyed writes: the latest record
written for `(groupId, id)`, or `none` when the record was never created. -/
def storeGet (writes : List KeyedWrite) (groupId id : String) : Option StreamRecord :=
  writes.foldl
    (fun acc w => if w.groupId = groupId ∧ w.id = id then some w.record else acc)
    none

/-- Payload of the `meeting-transcription` event emitted by the API step. -/
structure MeetingTranscriptionData where
  filename : String
  audioData : Option String
  language : String
  model : String
  transcriptionId : String
  apiRequest : Bool
  localWhisperPath : String
deriving Repr, DecidableEq

/-- Payload of the `transcription-completed` event emitted by the
processor step. -/
structure TranscriptionCompletedData where
  filename : String
  transcriptionId : String
  duration : ℚ
  transcript : String
  participants : List String
  actionItems : List String
  whisperModel : String
deriving Repr, DecidableEq

/-- The events published on the bus, tagged per topic. -/
inductive PipelineEvent
  | meetingTranscription (d : MeetingTranscriptionData)
  | transcriptionCompleted (d : TranscriptionCompletedData)
  | transcriptionFailed (transcriptionId filename error whisperModel : String)
  | summaryCompleted (transcriptionId filename : String)
  | actionItemsExtracted (transcriptionId filename : String)
deriving Repr, DecidableEq

/-- The topic string of an event. -/
def PipelineEvent.topic : PipelineEvent → String
  | .meetingTranscription _ => "meeting-transcription"
  | .transcriptionCompleted _ => "transcription-completed"
  | .transcriptionFailed _ _ _ _ => "transcription-failed"
  | .summaryCompleted _ _ => "summary-completed"
  | .actionItemsExtracted _ _ => "action-items-extracted"

/-- `config.subscribes` of `meeting-summarizer.step.ts`. -/
def summarizerSubscribes : List String := ["transcription-completed"]

/-- `config.emits` of `meeting-summarizer.step.ts`. -/
def summarizerEmitsTopics : List String := ["summary-completed", "action-items-extracted"]

/-- `config.subscribes` of `meeting-transcription-processor.step.ts`. -/
def processorSubscribes : List String := ["meeting-transcription"]

/-- `config.emits` of `meeting-transcription-processor.step.ts`. -/
def processorEmitsTopics : List String := ["transcription-completed", "transcription-failed"]

/-! ## Ingress: the `MeetingTranscriptionAPI` step -/

/-- The request body of the API step (raw optional fields, before any
defaulting: the handler itself applies `|| 'en'` and
`|| 'whisper-large-v3'` where it needs defaults). -/
structure ApiRequestBody where
  filename : Option String := none
  audioData : Option String := none
  language : Option String := none
  model : Option String := none
  localWhisperPath : Option String := none
deriving Repr, DecidableEq

/-- The transcription id
`` `trans_${Date.now()}_${Math.random().toString(36).substr(2, 9)}` ``:
`now` is the decimal rendering of `Date.now()` and `rand` the
base-36 random suffix; both are underscore-free in JavaScript. -/
def mkTranscriptionId (now rand : String) : String :=
  "trans_" ++ now ++ "_" ++ rand

/-- The 400 response body shape. -/
structure ApiErrorBody where
  error : String
  details : Option String := none
deriving Repr, DecidableEq

/-- The 200 response body: the literal fields of the `return` object plus
the fields spread from `...streamResult`, the record returned by the
State Store write (the store's `put`/`set` returns the resulting record). -/
structure ApiOkBody where
  message : String
  traceId : String
  transcriptionId : String
  streamId : String
  localWhisperPath : String
  status : Status
  progress : Nat
  filename : String
  localWhisperStatus : Option String
  whisperModel : Option String
deriving Repr, DecidableEq

/-- Everything observable about one API-handler invocation. -/
structure ApiResult where
  statusCode : Nat
  okBody : Option ApiOkBody := none
  errorBody : Option ApiErrorBody := none
  writes : List KeyedWrite := []
  events : List PipelineEvent := []
deriving Repr, DecidableEq

/-- The `MeetingTranscriptionAPI` handler (the API step of the README).
`traceId` is the group id supplied by the framework, `now`/`rand` the
two nondeterministic inputs of the id generator. The `catch` branch
(store/bus unavailability) is not modelled: the store and bus writes are
assumed available. -/
def apiHandler (traceId now rand : String) (body : ApiRequestBody) : ApiResult :=
  if jsFalsyString body.filename then
    { statusCode := 400
      errorBody := some
        { error := "Missing required field: filename"
          details := some "The filename field is required for transcription" } }
  else
    let filename := body.filename.getD ""
    let transcriptionId := mkTranscriptionId now rand
    let localWhisperPath := jsOrElse body.localWhisperPath "./scripts/transcribe_whisper.py"
    let streamResult : StreamRecord :=
      { status := .uploading
        progress := 0
        filename := filename
        localWhisperStatus := some "pending"
        whisperModel := body.model }
    { statusCode := 200
      okBody := some
        { message := "Meeting transcription request submitted successfully"
          traceId := traceId
          transcriptionId := transcriptionId
          streamId := transcriptionId
          localWhisperPath := localWhisperPath
          status := streamResult.status
          progress := streamResult.progress
          filename := streamResult.filename
          localWhisperStatus := streamResult.localWhisperStatus
          whisperModel := streamResult.whisperModel }
      writes := [⟨traceId, transcriptionId, streamResult⟩]
      events := [.meetingTranscription
        { filename := filename
          audioData := body.audioData
          language := jsOrElse body.language "en"
          model := jsOrElse body.model "whisper-large-v3"
          transcriptionId := transcriptionId
          apiRequest := true
          localWhisperPath := localWhisperPath }] }

/-! ## Transcription Stage: the `MeetingTranscriptionProcessor` step -/

/-- Input of the processor step (its Zod `input` schema). -/
structure ProcessorInput where
  filename : String
  audioData : Option String := none
  language : String
  model : String
  transcriptionId : String
  apiRequest : Option Bool := none
  localWhisperPath : Option String := none
deriving Repr, DecidableEq

/-- The fixed checkpoint table `transcriptionSteps`:
(progress, message, whisperStatus). -/
def transcriptionSteps : List (Nat × String × String) :=
  [(20, "Loading Whisper model", "loading_model"),
   (40, "Processing audio file", "processing_audio"),
   (60, "Generating transcript", "generating_transcript"),
   (80, "Post-processing results", "post_processing"),
   (90, "Finalizing transcription", "finalizing")]

/-- The simulated transcript template of the processor step. -/
def mockTranscript (filename : String) : String :=
  "This is a simulated transcript for " ++ filename ++ ". \n    In a real implementation, this would be the actual transcription from the Whisper API.\n    The transcript would include all spoken content with proper punctuation and formatting."

/-- The fixed simulated participant list of the processor step. -/
def mockParticipants : List String := ["John Doe", "Jane Smith", "Bob Johnson"]

/-- The fixed simulated action-item list of the processor step. -/
def mockActionItems : List String :=
  ["Schedule follow-up meeting", "Review project timeline", "Update documentation"]

/-- Outcome of one processor run: either the simulated engine work
completes, or a fault is raised after `failedAfter` of the 6 non-terminal
stream writes (the initial write plus 5 checkpoints) have landed, and the
`catch` branch runs. -/
inductive ProcessorOutcome
  | ok
  | fault (failedAfter : Fin 7) (message : String)
deriving Repr, DecidableEq

/-- Everything observable about one event-handler run: the stream writes
performed, the events emitted, and whether the handler re-threw a fault
to its caller. -/
structure StageRun where
  writes : List KeyedWrite
  events : List PipelineEvent
  rethrown : Option String := none
deriving Repr, DecidableEq

/-- The six non-terminal writes of the processor's `try` block: the
initial `status=transcribing, progress=10` write followed by the five
checkpoint writes. -/
def processorNonTerminalWrites (traceId : String) (input : ProcessorInput) :
    List KeyedWrite :=
  ⟨traceId, input.transcriptionId,
    { status := .transcribing
      progress := 10
      filename := input.filename
      localWhisperStatus := some "initializing"
      whisperModel := some input.model }⟩ ::
  transcriptionSteps.map (fun step =>
    ⟨traceId, input.transcriptionId,
      { status := .transcribing
        progress := step.1
        filename := input.filename
        localWhisperStatus := some step.2.2
        whisperModel := some input.model }⟩)

/-- The `MeetingTranscriptionProcessor` handler. `mockDuration` stands for
the `Math.random()`-derived simulated duration. On success it writes the
`status=completed, progress=100` record and emits `transcription-completed`;
on a fault the `catch` branch writes `status=failed, progress=0` and emits
`transcription-failed` (it does not re-throw). -/
def processorRun (traceId : String) (input : ProcessorInput) (mockDuration : ℚ) :
    ProcessorOutcome → StageRun
  | .ok =>
    { writes := processorNonTerminalWrites traceId input ++
        [⟨traceId, input.transcriptionId,
          { status := .completed
            progress := 100
            filename := input.filename
            duration := some mockDuration
            transcript := some (mockTranscript input.filename)
            participants := some mockParticipants
            actionItems := some mockActionItems
            localWhisperStatus := some "completed"
            whisperModel := some input.model }⟩]
      events := [.transcriptionCompleted
        { filename := input.filename
          transcriptionId := input.transcriptionId
          duration := mockDuration
          transcript := mockTranscript input.filename
          participants := mockParticipants
          actionItems := mockActionItems
          whisperModel := input.model }] }
  | .fault k msg =>
    { writes := (processorNonTerminalWrites traceId input).take k ++
        [⟨traceId, input.transcriptionId,
          { status := .failed
            progress := 0
            filename := input.filename
            error := some msg
            localWhisperStatus := some "failed"
            whisperModel := some input.model }⟩]
      events := [.transcriptionFailed input.transcriptionId input.filename msg input.model] }

/-- `(status, progress)` trace of the stream writes of one processor run. -/
def processorStatusProgress (traceId : String) (input : ProcessorInput)
    (mockDuration : ℚ) (outcome : ProcessorOutcome) : List (Status × Nat) :=
  (processorRun traceId input mockDuration outcome).writes.map
    (fun w => (w.record.status, w.record.progress))

/-! ## Analysis Stage: the `MeetingSummarizer` step -/

/-- Input of the summarizer step (its Zod `inputSchema`). -/
structure SummarizerInput where
  filename : String
  transcriptionId : String
  transcript : String
  participants : Option (List String) := none
  duration : Option ℚ := none
  whisperModel : String
deriving Repr, DecidableEq

/-- Outcome of one summarizer run: the analysis either completes or a
fault is raised between the initial write and the final write, and the
`catch` branch runs. -/
inductive SummarizerOutcome
  | ok
  | fault (message : String)
deriving Repr, DecidableEq

/-- Unkeyed appends `streams.meetingTranscription.add(record)` plus the
events and the re-throw behaviour of one summarizer run. -/
structure SummarizerRun where
  appends : List StreamRecord
  events : List PipelineEvent
  rethrown : Option String := none
deriving Repr, DecidableEq

/-- The `MeetingSummarizer` handler. On success: the initial
`status=processing, progress=100` append, the final `status=completed`
append carrying all six engine outputs, then the `summary-completed` and
`action-items-extracted` events. On a fault: the `catch` branch appends
`status=failed, progress=100` with error `"Summarization failed: <msg>"`,
emits nothing, and *re-throws* (`throw error`). -/
def summarizerRun (input : SummarizerInput) : SummarizerOutcome → SummarizerRun
  | .ok =>
    { appends :=
        [{ status := .processing
           progress := 100
           filename := input.filename
           localWhisperStatus := some "Generating intelligent summary..."
           whisperModel := some input.whisperModel },
         { status := .completed
           progress := 100
           filename := input.filename
           transcript := some input.transcript
           summary := some (generateMeetingSummary input.transcript)
           actionItems := some (extractActionItems input.transcript input.participants)
           keyTopics := some (extractKeyTopics input.transcript)
           sentimentAnalysis := some (analyzeSentiment input.transcript)
           decisions := some (extractDecisions input.transcript)
           insights := some (generateInsights input.transcript input.participants input.duration)
           participants := input.participants
           duration := input.duration
           localWhisperStatus := some "Summary and analysis completed!"
           whisperModel := some input.whisperModel }]
      events := [.summaryCompleted input.transcriptionId input.filename,
                 .actionItemsExtracted input.transcriptionId input.filename] }
  | .fault msg =>
    { appends :=
        [{ status := .processing
           progress := 100
           filename := input.filename
           localWhisperStatus := some "Generating intelligent summary..."
           whisperModel := some input.whisperModel },
         { status := .failed
           progress := 100
           filename := input.filename
           error := some ("Summarization failed: " ++ msg)
           localWhisperStatus := some "Summary generation failed" }]
      events := []
      rethrown := some msg }

/-- The summarizer input built from a `transcription-completed` payload
(`context.body` of the summarizer handler). -/
def summarizerInputOf (d : TranscriptionCompletedData) : SummarizerInput :=
  { filename := d.filename
    transcriptionId := d.transcriptionId
    transcript := d.transcript
    participants := some d.participants
    duration := some d.duration
    whisperModel := d.whisperModel }

/-- Bus dispatch into the Analysis Stage: the summarizer handler runs
exactly on events whose topic is in its `subscribes` list, and publishes
that run's events. -/
def analysisStageEvents (e : PipelineEvent) (outcome : SummarizerOutcome) :
    List PipelineEvent :=
  if e.topic ∈ summarizerSubscribes then
    match e with
    | .transcriptionCompleted d => (summarizerRun (summarizerInputOf d) outcome).events
    | _ => []
  else []

/-- The full per-record event trace: the Transcription Stage's events
followed by the Analysis Stage's events for every delivered event. -/
def recordEventTrace (traceId : String) (input : ProcessorInput) (mockDuration : ℚ)
    (procOutcome : ProcessorOutcome) (anaOutcome : SummarizerOutcome) :
    List PipelineEvent :=
  let procEvents := (processorRun traceId input mockDuration procOutcome).events
  procEvents ++ (procEvents.map (fun e => analysisStageEvents e anaOutcome)).flatten

/-! ## Helper lemmas -/

/-- The status/progress trace of a successful processor run, evaluated. -/
theorem processorStatusProgress_ok (t : String) (i : ProcessorInput) (d : ℚ) :
    processorStatusProgress t i d .ok =
      [(.transcribing, 10), (.transcribing, 20), (.transcribing, 40),
       (.transcribing, 60), (.transcribing, 80), (.transcribing, 90),
       (.completed, 100)] := rfl

/-- The status/progress trace of a faulting processor run, evaluated. -/
theorem processorStatusProgress_fault (t : String) (i : ProcessorInput) (d : ℚ)
    (k : Fin 7) (msg : String) :
    processorStatusProgress t i d (.fault k msg) =
      ([(.transcribing, 10), (.transcribing, 20), (.transcribing, 40),
        (.transcribing, 60), (.transcribing, 80), (.transcribing, 90)].take k)
      ++ [(.failed, 0)] := by
  fin_cases k <;> rfl

/-- Splitting a character list at an underscore separator is unambiguous
when neither left part contains an underscore. -/
theorem append_underscore_inj {a c : List Char} {b d : List Char}
    (ha : '_' ∉ a) (hc : '_' ∉ c) (h : a ++ '_' :: b = c ++ '_' :: d) :
    a = c ∧ b = d := by
  induction a generalizing c with
  | nil =>
    cases c with
    | nil => simpa using h
    | cons y ys =>
      simp only [List.nil_append, List.cons_append, List.cons.injEq] at h
      exact absurd (h.1 ▸ List.mem_cons_self y ys) hc
  | cons x xs ih =>
    cases c with
    | nil =>
      simp only [List.nil_append, List.cons_append, List.cons.injEq] at h
      exact absurd (h.1.symm ▸ List.mem_cons_self x xs) ha
    | cons y ys =>
      simp only [List.cons_append, List.cons.injEq] at h
      obtain ⟨hxy, htail⟩ := h
      obtain ⟨hl, hr⟩ := ih (fun hm => ha (List.mem_cons_of_mem _ hm))
        (fun hm => hc (List.mem_cons_of_mem _ hm)) htail
      exact ⟨by rw [hxy, hl], hr⟩

/-- The transcription-id encoding is injective as long as the
time component contains no underscore (decimal digit strings never do). -/
theorem mkTranscriptionId_inj {n1 r1 n2 r2 : String}
    (h1 : '_' ∉ n1.data) (h2 : '_' ∉ n2.data)
    (h : mkTranscriptionId n1 r1 = mkTranscriptionId n2 r2) :
    n1 = n2 ∧ r1 = r2 := by
  have hd := congrArg String.data h
  simp only [mkTranscriptionId, String.data_append, List.append_assoc,
    List.singleton_append, List.cons_append, List.nil_append, List.cons.injEq,
    true_and] at hd
  obtain ⟨hl, hr⟩ := append_underscore_inj h1 h2 hd
  exact ⟨String.ext hl, String.ext hr⟩

/-! ## Claim theorems -/

/-- **C1**: for every record driven by the Transcription Stage, the
progress trace starts with the `status=transcribing, progress=10` write,
is strictly increasing up to the successful terminal write, every
intermediate checkpoint is strictly between 10 and 100, at least one
intermediate update precedes completion, the successful terminal write has
`progress=100`, and on a faulting run the writes before the terminal write
are still non-decreasing. -/
theorem transcription_progress_checkpoints (t : String) (i : ProcessorInput) (d : ℚ) :
    (processorStatusProgress t i d .ok).head? = some (.transcribing, 10)
    ∧ (∀ pr ∈ (processorStatusProgress t i d .ok).zip
          (processorStatusProgress t i d .ok).tail, pr.1.2 < pr.2.2)
    ∧ ((processorStatusProgress t i d .ok).dropLast.drop 1 ≠ []
        ∧ ∀ p ∈ (processorStatusProgress t i d .ok).dropLast.drop 1,
            p.1 = Status.transcribing ∧ 10 < p.2 ∧ p.2 < 100)
    ∧ (processorStatusProgress t i d .ok).getLast? = some (.completed, 100)
    ∧ ∀ (k : Fin 7) (msg : String),
        ∀ pr ∈ (processorStatusProgress t i d (.fault k msg)).dropLast.zip
          (processorStatusProgress t i d (.fault k msg)).dropLast.tail,
          pr.1.2 ≤ pr.2.2 := by
  refine ⟨?_, ?_, ⟨?_, ?_⟩, ?_, ?_⟩
  · rw [processorStatusProgress_ok]; rfl
  · rw [processorStatusProgress_ok]; decide
  · rw [processorStatusProgress_ok]; decide
  · rw [processorStatusProgress_ok]; decide
  · rw [processorStatusProgress_ok]; rfl
  · intro k msg
    rw [processorStatusProgress_fault]
    fin_cases k <;> decide

/-- **C2**: the Analysis Stage is subscribed only to
`transcription-completed`; a faulting transcription publishes only
`transcription-failed`, and the whole per-record event trace after a
transcription failure consists of that single event — in particular no
`summary-completed` event ever follows a `transcription-failed` event for
the same record. -/
theorem no_analysis_after_transcription_failure (t : String) (i : ProcessorInput)
    (d : ℚ) (k : Fin 7) (msg : String) (ana : SummarizerOutcome) :
    summarizerSubscribes = ["transcription-completed"]
    ∧ (processorRun t i d (.fault k msg)).events.map PipelineEvent.topic
        = ["transcription-failed"]
    ∧ (recordEventTrace t i d (.fault k msg) ana).map PipelineEvent.topic
        = ["transcription-failed"] := by
  refine ⟨rfl, rfl, ?_⟩
  simp [recordEventTrace, processorRun, analysisStageEvents, summarizerSubscribes,
    PipelineEvent.topic]

/-- **C3**: a submission whose filename is missing or empty is rejected
with HTTP 400 and a `Missing required field` error, and no record is
created in the store. -/
theorem submit_missing_filename_rejected (t now rand : String) (body : ApiRequestBody)
    (h : jsFalsyString body.filename = true) :
    (apiHandler t now rand body).statusCode = 400
    ∧ (apiHandler t now rand body).errorBody =
        some { error := "Missing required field: filename"
               details := some "The filename field is required for transcription" }
    ∧ (apiHandler t now rand body).writes = []
    ∧ ∀ id, storeGet (apiHandler t now rand body).writes t id = none := by
  simp [apiHandler, h, storeGet]

/-- Witness for `submit_missing_filename_rejected` at the empty body. -/
theorem submit_missing_filename_rejected_witness :
    (apiHandler "trace-1" "1700000000000" "k3j9q2m4p" {}).statusCode = 400
    ∧ (apiHandler "trace-1" "1700000000000" "k3j9q2m4p" {}).errorBody =
        some { error := "Missing required field: filename"
               details := some "The filename field is required for transcription" }
    ∧ (apiHandler "trace-1" "1700000000000" "k3j9q2m4p" {}).writes = []
    ∧ ∀ id, storeGet (apiHandler "trace-1" "1700000000000" "k3j9q2m4p" {}).writes
        "trace-1" id = none :=
  submit_missing_filename_rejected "trace-1" "1700000000000" "k3j9q2m4p" {} rfl

/-- **C4** counterexample: on a concrete valid submission the 200 response
body's `status` field — spread from the store-write result — is
`uploading`, not the string `"processing"` the claim requires. -/
theorem submit_response_status_not_processing_cex :
    (apiHandler "trace-1" "1700000000000" "k3j9q2m4p"
      { filename := some "standup.wav" }).okBody.map ApiOkBody.status
      = some Status.uploading
    ∧ Status.uploading ≠ Status.processing := by
  refine ⟨rfl, ?_⟩
  decide

/-- **C4** amended: for every accepted submission the synchronous HTTP 200
response body contains the new id and the group id, but its `status` field
is `uploading` (the status of the just-created record, spread into the
response from the store write result), not `"processing"`. -/
theorem submit_response_fields (t now rand : String) (body : ApiRequestBody)
    (h : jsFalsyString body.filename = false) :
    (apiHandler t now rand body).statusCode = 200
    ∧ (apiHandler t now rand body).okBody.map ApiOkBody.traceId = some t
    ∧ (apiHandler t now rand body).okBody.map ApiOkBody.transcriptionId
        = some (mkTranscriptionId now rand)
    ∧ (apiHandler t now rand body).okBody.map ApiOkBody.status = some Status.uploading := by
  simp [apiHandler, h]

/-- Witness for `submit_response_fields` at a concrete valid submission. -/
theorem submit_response_fields_witness :
    (apiHandler "trace-1" "1700000000000" "k3j9q2m4p"
        { filename := some "standup.wav" }).statusCode = 200
    ∧ (apiHandler "trace-1" "1700000000000" "k3j9q2m4p"
        { filename := some "standup.wav" }).okBody.map ApiOkBody.traceId = some "trace-1"
    ∧ (apiHandler "trace-1" "1700000000000" "k3j9q2m4p"
        { filename := some "standup.wav" }).okBody.map ApiOkBody.transcriptionId
        = some (mkTranscriptionId "1700000000000" "k3j9q2m4p")
    ∧ (apiHandler "trace-1" "1700000000000" "k3j9q2m4p"
        { filename := some "standup.wav" }).okBody.map ApiOkBody.status
        = some Status.uploading :=
  submit_response_fields "trace-1" "1700000000000" "k3j9q2m4p"
    { filename := some "standup.wav" } rfl

/-- **C5**: the generated ids are distinct whenever the (time, random
suffix) pairs differ (the components never contain an underscore in
JavaScript: the time prefix is a decimal rendering of `Date.now()` and the
suffix is base-36), and immediately after an accepted submission the
record for `(groupId, id)` is retrievable with `status=uploading` and
`progress=0`. -/
theorem submission_ids_unique_and_record_initialized
    (n1 r1 n2 r2 : String)
    (h1 : '_' ∉ n1.data) (h2 : '_' ∉ n2.data)
    (hne : ¬(n1 = n2 ∧ r1 = r2))
    (t now rand : String) (body : ApiRequestBody)
    (hv : jsFalsyString body.filename = false) :
    mkTranscriptionId n1 r1 ≠ mkTranscriptionId n2 r2
    ∧ (storeGet (apiHandler t now rand body).writes t (mkTranscriptionId now rand)).map
        (fun rec => (rec.status, rec.progress)) = some (Status.uploading, 0) := by
  constructor
  · intro h
    exact hne (mkTranscriptionId_inj h1 h2 h)
  · simp [apiHandler, hv, storeGet]

/-- Witness for `submission_ids_unique_and_record_initialized` at two
concrete id-generator inputs and a concrete valid submission. -/
theorem submission_ids_unique_and_record_initialized_witness :
    mkTranscriptionId "1700000000000" "k3j9q2m4p" ≠ mkTranscriptionId "1700000000001" "k3j9q2m4p"
    ∧ (storeGet (apiHandler "trace-1" "1700000000000" "k3j9q2m4p"
          { filename := some "standup.wav" }).writes "trace-1"
          (mkTranscriptionId "1700000000000" "k3j9q2m4p")).map
        (fun rec => (rec.status, rec.progress)) = some (Status.uploading, 0) :=
  submission_ids_unique_and_record_initialized
    "1700000000000" "k3j9q2m4p" "1700000000001" "k3j9q2m4p"
    (by decide) (by decide) (by decide)
    "trace-1" "1700000000000" "k3j9q2m4p" { filename := some "standup.wav" } rfl

/-- **C6** counterexample: at a concrete internal fault the Analysis Stage
*does* re-throw past the stage boundary, and its error string has the
form `"Summarization failed: <message>"`, not
`"analysis failed: <message>"`. -/
theorem analysis_fault_rethrows_cex :
    (summarizerRun
      { filename := "standup.wav", transcriptionId := "trans_1_a",
        transcript := "hello", whisperModel := "whisper-large-v3" }
      (.fault "boom")).rethrown = some "boom"
    ∧ ((summarizerRun
      { filename := "standup.wav", transcriptionId := "trans_1_a",
        transcript := "hello", whisperModel := "whisper-large-v3" }
      (.fault "boom")).appends.getLast?.map StreamRecord.error)
        = some (some "Summarization failed: boom")
    ∧ "Summarization failed: boom" ≠ "analysis failed: boom" := by
  refine ⟨rfl, rfl, ?_⟩
  decide

/-- **C6** amended: whenever the Analysis Stage encounters an internal
fault it writes `status=failed`, `progress=100` with an error message of
the form `"Summarization failed: <message>"`, publishes neither
`summary-completed` nor `action-items-extracted` for that record, and
re-throws the fault past the stage boundary. -/
theorem analysis_fault_behavior (input : SummarizerInput) (msg : String) :
    (summarizerRun input (.fault msg)).events = []
    ∧ (summarizerRun input (.fault msg)).rethrown = some msg
    ∧ (summarizerRun input (.fault msg)).appends.getLast?.map
        (fun rec => (rec.status, rec.progress, rec.error))
      = some (Status.failed, 100, some ("Summarization failed: " ++ msg)) :=
  ⟨rfl, rfl, rfl⟩

/-- **C7**: each Text-Analysis Engine function is a pure function of the
transcript, participant list and duration: two invocations on the same
inputs return identical outputs. -/
theorem analysis_engine_deterministic (t : String) (ps : Option (List String))
    (d : Option ℚ) :
    (generateMeetingSummary t, extractActionItems t ps, extractKeyTopics t,
     analyzeSentiment t, extractDecisions t, generateInsights t ps d)
    = (generateMeetingSummary t, extractActionItems t ps, extractKeyTopics t,
       analyzeSentiment t, extractDecisions t, generateInsights t ps d) := rfl

/-- **C8**: sentiment analysis counts which words of the fixed positive
and negative lists occur in the lowercased transcript; `overall` is
`positive`/`negative` exactly on a strict majority, else `neutral`;
`confidence = min(0.95, 0.6 + 0.1*|positiveCount - negativeCount|)`; and
`energyLevel` is `high` exactly when the text contains `"excited"` or
`"enthusiastic"`, else `medium`. -/
theorem sentiment_analysis_spec (t : String) :
    (analyzeSentiment t).positiveIndicators
      = (positiveWords.filter (fun w => jsIncludes t.toLower w)).length
    ∧ (analyzeSentiment t).negativeIndicators
      = (negativeWords.filter (fun w => jsIncludes t.toLower w)).length
    ∧ (analyzeSentiment t).overall =
        (if (positiveWords.filter (fun w => jsIncludes t.toLower w)).length >
            (negativeWords.filter (fun w => jsIncludes t.toLower w)).length
         then "positive"
         else if (negativeWords.filter (fun w => jsIncludes t.toLower w)).length >
            (positiveWords.filter (fun w => jsIncludes t.toLower w)).length
         then "negative"
         else "neutral")
    ∧ (analyzeSentiment t).confidence =
        min (0.95 : ℚ)
          (0.6 + (((((positiveWords.filter (fun w => jsIncludes t.toLower w)).length : ℤ)
                   - (negativeWords.filter (fun w => jsIncludes t.toLower w)).length).natAbs : ℚ)
                 * 0.1))
    ∧ (analyzeSentiment t).energyLevel =
        (if jsIncludes t.toLower "excited" || jsIncludes t.toLower "enthusiastic"
         then "high" else "medium") :=
  ⟨rfl, rfl, rfl, rfl, rfl⟩

/-- **C9** counterexample: on a transcript with an explicitly empty
participant list (zero participants) and unknown duration, the
participation score is `min(10, 0·2) = 0`, not the default 8 — the
JavaScript truthiness test `participants ? … : 8` treats an empty array as
present. -/
theorem insights_zero_participants_cex :
    (generateInsights "We should plan the project timeline soon" (some []) none).participationScore = 0
    ∧ ¬ (generateInsights "We should plan the project timeline soon" (some []) none).participationScore = 8 := by
  refine ⟨rfl, ?_⟩
  decide

/-- **C9** amended: insight generation never crashes; when the participant
list is *absent* (unknown) and the duration unknown, the participation
score takes the default 8 and the speaking rate the fixed default 150;
when the participant list is present but empty and the duration unknown,
the participation score is `min(10, 0) = 0` while the speaking rate is
still 150. -/
theorem insights_defaults (t : String) :
    (generateInsights t none none).participationScore = 8
    ∧ (generateInsights t none none).keyMetrics.estimatedSpeakingRate = 150
    ∧ (generateInsights t (some []) none).participationScore = 0
    ∧ (generateInsights t (some []) none).keyMetrics.estimatedSpeakingRate = 150 :=
  ⟨rfl, rfl, rfl, rfl⟩

/-- **C10**: the Analysis Stage's failure write sets `status=failed`
together with `progress=100`, while the Transcription Stage's failure
write sets `status=failed` with `progress=0` — so a record observed with
`status=failed` may carry `progress=100`, and `progress=0` is not a
reliable failure indicator. -/
theorem failure_write_progress_values (t : String) (i : ProcessorInput) (d : ℚ)
    (k : Fin 7) (msg : String) (si : SummarizerInput) (msg2 : String) :
    (processorStatusProgress t i d (.fault k msg)).getLast? = some (Status.failed, 0)
    ∧ ((summarizerRun si (.fault msg2)).appends.getLast?.map
        (fun rec => (rec.status, rec.progress))) = some (Status.failed, 100) := by
  constructor
  · rw [processorStatusProgress_fault]
    exact List.getLast?_concat _
  · rfl

end MeetingPipeline
